import Mathlib

/-!
Verification of the Neuroforge progression core against its specification.

The subject is a browser-resident quiz application whose core logic is a
progression/gamification subsystem: XP with a level curve, calendar-day
streak tracking with inactivity decay, rank/mind-type classification of a
score total, an idempotent achievement unlocker over a persisted set, and
export/import of the persisted state.

The shallow embedding below is translated from the most elaborated variant
of the script (the `Neuroforge` module, `src/unnamed/part_000`), with the
earlier snapshot variants (`src/static/js/app.js`, `src/unnamed/part_001`)
embedded separately where they diverge.  Modelling conventions:

* `localStorage` is modelled as a `Store` record with one field per key.
  A JSON-valued key is a `Cell`: `absent` (key missing), `stored v` (the
  key holds a string that parses to `v`), or `corrupt` (the key holds a
  string that fails to parse).  `JSON.stringify` followed by `JSON.parse`
  is the identity on the plain data stored here, so a written value is
  modelled directly.  Numeric keys (`xp`, `streak`) use `Cell Int`:
  `corrupt` stands for a raw string on which `Number(...)` is not finite.
  The last-active key is a raw string (never JSON-parsed), an
  `Option String`.
* Exceptions never escape the store: `safeGetJSON` catches the parse
  error, logs, re-persists the fallback and returns it.  The model is a
  total function whose `corrupt` branch is that catch handler.
* Calendar dates are modelled by their local-calendar day number
  (an `Int`).  For valid ISO `YYYY-MM-DD` strings, the source helper
  `diffInDaysLocal(a, b)` (parse both at local midnight, divide the
  millisecond difference by 86 400 000 and `Math.round` away any DST
  skew) equals the difference of day numbers, which is how it appears
  below.  Toast notifications are a FIFO list of messages on the state.
-/

/-- One persisted `localStorage` entry holding JSON text.  `stored v`:
the raw string parses to `v`; `corrupt`: `JSON.parse` throws on it. -/
inductive Cell (α : Type) where
  | absent
  | stored (v : α)
  | corrupt
deriving DecidableEq

/-- An assessment record as built by the onboarding submit handler. -/
structure Record where
  date : String
  focus : Int
  discipline : Int
  execution : Int
  consistency : Int
  total : Int
  mindType : String
  rank : String
deriving DecidableEq

/-- The persisted key-value store plus the toast queue of the session. -/
structure Store where
  history : Cell (List Record)
  achievements : Cell (List String)
  xp : Cell Int
  streak : Cell Int
  lastActive : Option String
  toasts : List String
deriving DecidableEq

/-- `safeGetJSON(key, fallback)`: return the parsed value; on a missing
key return the fallback; on a parse failure re-persist the fallback
(`safeSetJSON(key, fallback)`) and return it.  Returns the value read
together with the cell contents after the call. -/
def safeGetJSON {α : Type} (cell : Cell α) (fallback : α) : α × Cell α :=
  match cell with
  | .absent => (fallback, .absent)
  | .stored v => (v, .stored v)
  | .corrupt => (fallback, .stored fallback)

/-- `getHistory()` = `safeGetJSON(KEYS.HISTORY, [])`. -/
def getHistory (s : Store) : List Record × Store :=
  let r := safeGetJSON s.history []
  (r.1, { s with history := r.2 })

/-- `saveHistory(history)` = `safeSetJSON(KEYS.HISTORY, history)`. -/
def saveHistory (h : List Record) (s : Store) : Store :=
  { s with history := .stored h }

/-- `getAchievements()` = `safeGetJSON(KEYS.ACHIEVEMENTS, [])`. -/
def getAchievements (s : Store) : List String × Store :=
  let r := safeGetJSON s.achievements []
  (r.1, { s with achievements := r.2 })

/-- `saveAchievements(a)` = `safeSetJSON(KEYS.ACHIEVEMENTS, a)`. -/
def saveAchievements (a : List String) (s : Store) : Store :=
  { s with achievements := .stored a }

/-- `getXP()`: `Number(raw)` when finite, else `CONFIG.DEFAULT_XP` (0);
missing key also yields 0. -/
def getXP (s : Store) : Int :=
  match s.xp with
  | .absent => 0
  | .stored n => n
  | .corrupt => 0

/-- `getStreak()`: same shape as `getXP`, default 0. -/
def getStreak (s : Store) : Int :=
  match s.streak with
  | .absent => 0
  | .stored n => n
  | .corrupt => 0

/-- `getLastActive()` = `safeGetRaw(KEYS.LAST_ACTIVE)`. -/
def getLastActive (s : Store) : Option String :=
  s.lastActive

/-- `showToast(message)`: push the message on the FIFO toast queue. -/
def showToast (m : String) (s : Store) : Store :=
  { s with toasts := s.toasts ++ [m] }

/-- `calculateMindType(total)` as in the elaborated module and in
`src/static/js/app.js` (both use the same thresholds). -/
def calculateMindType (total : Int) : String :=
  if total ≥ 17 then "Focused Architect"
  else if total ≥ 13 then "Strategic Builder"
  else if total ≥ 10 then "Growing Explorer"
  else "Unstable Dreamer"

/-- `calculateRank(total)`: identical in all three variants. -/
def calculateRank (total : Int) : String :=
  if total ≥ 17 then "Architect"
  else if total ≥ 13 then "Builder"
  else if total ≥ 10 then "Explorer"
  else "Dreamer"

/-- `getNextRank(rank)`: successor in the rank ladder, idempotent at the
ceiling. -/
def getNextRank (rank : String) : String :=
  if rank = "Dreamer" then "Explorer"
  else if rank = "Explorer" then "Builder"
  else if rank = "Builder" then "Architect"
  else "Architect"

namespace Part001

/-- `calculateMindType(total)` as in the earliest snapshot
(`src/unnamed/part_001`): note the 16 threshold and the
"Strategic Explorer" label, diverging from the other two variants. -/
def calculateMindType (total : Int) : String :=
  if total ≥ 16 then "Focused Architect"
  else if total ≥ 13 then "Strategic Explorer"
  else if total ≥ 10 then "Growing Explorer"
  else "Unstable Dreamer"

end Part001

/-- Position of a rank label on the ladder induced by `getNextRank`
(Dreamer before Explorer before Builder before Architect), used to state
monotonicity of `calculateRank`. -/
def rankIndex (rank : String) : Nat :=
  if rank = "Dreamer" then 0
  else if rank = "Explorer" then 1
  else if rank = "Builder" then 2
  else 3

/-- Claim C5, as frozen, is refuted by the `part_001` variant it cites:
that variant classifies a total of 16 as "Focused Architect", while the
claimed step function (threshold 17 for "Focused Architect", 13 for
"Strategic Builder") assigns 16 the label "Strategic Builder" — a label
the `part_001` variant never produces. -/
theorem part001_mindType_at_16 :
    Part001.calculateMindType 16 = "Focused Architect" ∧
    Part001.calculateMindType 16 ≠ "Strategic Builder" := by
  decide

/-- Claim C5 (amended): in the elaborated module and in
`src/static/js/app.js`, `calculateMindType` is the four-tier step
function with thresholds 17 / 13 / 10, and the two end-to-end scenarios
hold there (total 20 gives "Focused Architect" / "Architect", total 4
gives "Unstable Dreamer" / "Dreamer"); the `part_001` snapshot instead
uses threshold 16 and the label "Strategic Explorer" for its second
tier. -/
theorem calculateMindType_step_spec (total : Int) :
    (17 ≤ total → calculateMindType total = "Focused Architect") ∧
    (13 ≤ total ∧ total < 17 → calculateMindType total = "Strategic Builder") ∧
    (10 ≤ total ∧ total < 13 → calculateMindType total = "Growing Explorer") ∧
    (total < 10 → calculateMindType total = "Unstable Dreamer") ∧
    (calculateMindType 20 = "Focused Architect" ∧ calculateRank 20 = "Architect") ∧
    (calculateMindType 4 = "Unstable Dreamer" ∧ calculateRank 4 = "Dreamer") := by
  refine ⟨?_, ?_, ?_, ?_, by decide, by decide⟩ <;>
    (intro h; unfold calculateMindType; repeat' split) <;>
    first | rfl | omega

/-- Witness for the amended claim C5 at total = 15. -/
theorem calculateMindType_step_spec_witness :
    calculateMindType 15 = "Strategic Builder" :=
  (calculateMindType_step_spec 15).2.1 (by decide)

/-- Claim C6: on the score range 4..20, `calculateRank` takes one of
exactly four values, is monotonically non-decreasing in the total (with
respect to the ladder order induced by `getNextRank`), and its band
boundaries sit exactly at 10, 13 and 17. -/
theorem calculateRank_monotone_bands (t1 t2 : Int)
    (h1 : 4 ≤ t1) (h2 : t2 ≤ 20) (h12 : t1 ≤ t2) :
    calculateRank t1 ∈ ["Dreamer", "Explorer", "Builder", "Architect"] ∧
    rankIndex (calculateRank t1) ≤ rankIndex (calculateRank t2) ∧
    (calculateRank 4 = "Dreamer" ∧ calculateRank 9 = "Dreamer" ∧
     calculateRank 10 = "Explorer" ∧ calculateRank 12 = "Explorer" ∧
     calculateRank 13 = "Builder" ∧ calculateRank 16 = "Builder" ∧
     calculateRank 17 = "Architect" ∧ calculateRank 20 = "Architect") := by
  have h1' : t1 ≤ 20 := le_trans h12 h2
  have h2' : 4 ≤ t2 := le_trans h1 h12
  refine ⟨?_, ?_, by decide⟩
  · interval_cases t1 <;> decide
  · interval_cases t1 <;> interval_cases t2 <;> decide

/-- Witness for claim C6 at the pair (9, 17). -/
theorem calculateRank_monotone_bands_witness :
    calculateRank 9 ∈ ["Dreamer", "Explorer", "Builder", "Architect"] ∧
    rankIndex (calculateRank 9) ≤ rankIndex (calculateRank 17) ∧
    (calculateRank 4 = "Dreamer" ∧ calculateRank 9 = "Dreamer" ∧
     calculateRank 10 = "Explorer" ∧ calculateRank 12 = "Explorer" ∧
     calculateRank 13 = "Builder" ∧ calculateRank 16 = "Builder" ∧
     calculateRank 17 = "Architect" ∧ calculateRank 20 = "Architect") :=
  calculateRank_monotone_bands 9 17 (by decide) (by decide) (by decide)

/-- `CONFIG.INACTIVITY_PENALTY_PER_DAY`. -/
def INACTIVITY_PENALTY_PER_DAY : Int := 5

/-- `CONFIG.ONBOARDING_BASE_XP`. -/
def ONBOARDING_BASE_XP : Int := 50

namespace Prog

/-!
The streak / decay / XP-grant dynamics operate on the numeric values
behind the store keys (what `getXP` / `getStreak` / `getLastActive`
return), so they are embedded over a projected state.  `lastActive`
holds the local-calendar day number of the stored `YYYY-MM-DD` string,
or `none` when the key is missing; `diffInDaysLocal(last, today)` is
then `today - last` (see the header comment).  The branch of the source
`updateStreak` for an unparseable stored date (`diffInDaysLocal`
returning `NaN`) has no counterpart here because day numbers only
represent parseable dates.
-/

/-- Projection of the persisted progression values: current XP, current
streak, last-active day number (if any), and the session toast queue. -/
structure ProgState where
  xp : Int
  streak : Int
  lastActive : Option Int
  toasts : List String
deriving DecidableEq

/-- `setXP(v)`: persists `String(Math.max(0, Math.floor(v)))`; on
integers the floor is the identity, leaving the clamp at zero. -/
def setXP (v : Int) (s : ProgState) : ProgState :=
  { s with xp := max 0 v }

/-- `setStreak(v)`: persists `String(Math.max(0, Math.floor(v)))`. -/
def setStreak (v : Int) (s : ProgState) : ProgState :=
  { s with streak := max 0 v }

/-- `setLastActive(d)`. -/
def setLastActive (d : Int) (s : ProgState) : ProgState :=
  { s with lastActive := some d }

/-- `showToast(message)` on the projected state. -/
def showToast (m : String) (s : ProgState) : ProgState :=
  { s with toasts := s.toasts ++ [m] }

/-- `grantXP(amount)`: `setXP(getXP() + amount)` followed by the gain
toast. -/
def grantXP (amount : Int) (s : ProgState) : ProgState :=
  showToast ("+" ++ toString amount ++ " XP gained") (setXP (s.xp + amount) s)

/-- `applyDailyXPDecay()`: read the last-active day; when it is at least
one day in the past, subtract `diffDays * CONFIG.INACTIVITY_PENALTY_PER_DAY`
from the XP, clamped at zero (`setXP(Math.max(0, getXP() - loss))`), and
toast the penalty.  `today` is the current local day number. -/
def applyDailyXPDecay (today : Int) (s : ProgState) : ProgState :=
  match s.lastActive with
  | none => s
  | some last =>
    let diffDays := today - last
    if diffDays ≥ 1 then
      let loss := diffDays * INACTIVITY_PENALTY_PER_DAY
      showToast ("Inactivity penalty: -" ++ toString loss ++ " XP")
        (setXP (max 0 (s.xp - loss)) s)
    else s

/-- `updateStreak()`: with no prior date the streak becomes 1; otherwise
branch on `diffDays = diffInDaysLocal(last, today)`: exactly 1 increments
the streak (and toasts it), greater than 1 resets the streak to 1 and runs
`applyDailyXPDecay()` (which still sees the old last-active date), and any
other value — 0 or negative — changes nothing.  The last-active date is
then unconditionally set to today. -/
def updateStreak (today : Int) (s : ProgState) : ProgState :=
  let s1 :=
    match s.lastActive with
    | none => setStreak 1 s
    | some last =>
      let diffDays := today - last
      if diffDays = 1 then
        let s2 := setStreak (s.streak + 1) s
        showToast ("Streak: " ++ toString s2.streak ++ " days") s2
      else if diffDays > 1 then
        applyDailyXPDecay today (setStreak 1 s)
      else s
  setLastActive today s1

/-- The progression part of the onboarding submit handler: after the
streak update, grant `CONFIG.ONBOARDING_BASE_XP + total * 5 +
getStreak() * 10` XP, where `getStreak()` reads the post-update streak.
(The handler first appends the assessment record to the history, which
does not touch any of the fields projected here; the achievement checks
that follow the grant never modify XP.) -/
def onboardingSubmit (today total : Int) (s : ProgState) : ProgState :=
  let s1 := updateStreak today s
  let streakBonus := s1.streak * 10
  let xpGain := ONBOARDING_BASE_XP + total * 5 + streakBonus
  grantXP xpGain s1

/-- The streak update never drives the streak negative, given the store
invariant that the persisted streak is non-negative. -/
theorem updateStreak_streak_nonneg (today : Int) (s : ProgState)
    (h : 0 ≤ s.streak) : 0 ≤ (updateStreak today s).streak := by
  unfold updateStreak applyDailyXPDecay setStreak setLastActive showToast setXP
  cases s.lastActive <;> simp <;> repeat' split
  all_goals simp_all

/-- The streak update never drives the XP negative, given the store
invariant that the persisted XP is non-negative. -/
theorem updateStreak_xp_nonneg (today : Int) (s : ProgState)
    (h : 0 ≤ s.xp) : 0 ≤ (updateStreak today s).xp := by
  unfold updateStreak applyDailyXPDecay setStreak setLastActive showToast setXP
  cases s.lastActive <;> simp <;> repeat' split
  all_goals simp_all

end Prog

/-- Claim C1: with a recorded last-active day `last` and current day
`today`, write `k` for the whole-day delta `today - last`.  If `k = 1`
the streak update increments the streak by exactly one; if `k = 0` the
streak is unchanged; if `k > 1` the streak is set to 1 and the XP
becomes `max 0 (xp - k * perDayPenalty)` with `perDayPenalty = 5` — the
XP drops by exactly `k * 5`, floored at zero, and is never negative.
The non-negative streak hypothesis is the store invariant maintained by
`setStreak`. -/
theorem updateStreak_day_delta_spec (today last : Int) (s : Prog.ProgState)
    (hla : s.lastActive = some last) (hst : 0 ≤ s.streak) :
    (today - last = 1 → (Prog.updateStreak today s).streak = s.streak + 1) ∧
    (today - last = 0 → (Prog.updateStreak today s).streak = s.streak) ∧
    (1 < today - last →
      (Prog.updateStreak today s).streak = 1 ∧
      (Prog.updateStreak today s).xp
        = max 0 (s.xp - (today - last) * INACTIVITY_PENALTY_PER_DAY) ∧
      0 ≤ (Prog.updateStreak today s).xp) := by
  unfold Prog.updateStreak Prog.applyDailyXPDecay Prog.setStreak
    Prog.setLastActive Prog.showToast Prog.setXP INACTIVITY_PENALTY_PER_DAY
  rw [hla]
  refine ⟨fun h1 => ?_, fun h0 => ?_, fun hk => ?_⟩ <;>
    simp <;> repeat' split
  all_goals simp_all <;> omega

/-- Witness for claim C1: day delta 3 on a state with XP 7 and streak 3
resets the streak and floors the 15-point penalty at zero. -/
theorem updateStreak_day_delta_spec_witness :
    (Prog.updateStreak 13 ⟨7, 3, some 10, []⟩).streak = 1 ∧
    (Prog.updateStreak 13 ⟨7, 3, some 10, []⟩).xp
      = max 0 (7 - (13 - 10) * INACTIVITY_PENALTY_PER_DAY) ∧
    0 ≤ (Prog.updateStreak 13 ⟨7, 3, some 10, []⟩).xp :=
  (updateStreak_day_delta_spec 13 10 ⟨7, 3, some 10, []⟩ rfl (by decide)).2.2
    (by decide)

/-- Claim C7, as frozen, is refuted by the code: with the last-active
day strictly in the future (delta -2 here), no branch of `updateStreak`
matches, so a streak of 7 stays 7 instead of being reset to 1 as the
claim requires. -/
theorem updateStreak_negative_delta_counterexample :
    (Prog.updateStreak 8 ⟨0, 7, some 10, []⟩).streak = 7 ∧
    (Prog.updateStreak 8 ⟨0, 7, some 10, []⟩).streak ≠ 1 := by
  decide

/-- Claim C7 (amended): for a last-active date strictly later than today
(negative whole-day delta), the streak update does not crash — it is a
total function that matches no branch — and leaves the streak and the XP
unchanged before recording today as the last active date. -/
theorem updateStreak_negative_delta_spec (today last : Int)
    (s : Prog.ProgState) (hla : s.lastActive = some last)
    (hneg : today - last < 0) :
    (Prog.updateStreak today s).streak = s.streak ∧
    (Prog.updateStreak today s).xp = s.xp ∧
    (Prog.updateStreak today s).lastActive = some today := by
  unfold Prog.updateStreak Prog.applyDailyXPDecay Prog.setStreak
    Prog.setLastActive Prog.showToast Prog.setXP
  rw [hla]
  refine ⟨?_, ?_, ?_⟩ <;> simp <;> repeat' split
  all_goals simp_all
  all_goals omega

/-- Witness for the amended claim C7 at delta -2. -/
theorem updateStreak_negative_delta_spec_witness :
    (Prog.updateStreak 8 ⟨3, 7, some 10, []⟩).streak = 7 ∧
    (Prog.updateStreak 8 ⟨3, 7, some 10, []⟩).xp = 3 ∧
    (Prog.updateStreak 8 ⟨3, 7, some 10, []⟩).lastActive = some 8 :=
  updateStreak_negative_delta_spec 8 10 ⟨3, 7, some 10, []⟩ rfl (by decide)

/-- Claim C10: on an onboarding submission the XP counter, after the
streak update, increases by exactly `50 + 5 * total + 10 * streak` where
`streak` is the post-update streak, and the grant itself never decreases
the XP.  The hypotheses are the store invariants (non-negative persisted
XP and streak) and the total being a sum of four ratings of at least 1
each. -/
theorem onboarding_xp_grant_spec (today total : Int) (s : Prog.ProgState)
    (hxp : 0 ≤ s.xp) (hst : 0 ≤ s.streak) (htotal : 4 ≤ total) :
    (Prog.onboardingSubmit today total s).xp
      = (Prog.updateStreak today s).xp
        + (50 + 5 * total + 10 * (Prog.updateStreak today s).streak) ∧
    (Prog.updateStreak today s).xp ≤ (Prog.onboardingSubmit today total s).xp := by
  have h1 := Prog.updateStreak_streak_nonneg today s hst
  have h2 := Prog.updateStreak_xp_nonneg today s hxp
  unfold Prog.onboardingSubmit Prog.grantXP Prog.setXP Prog.showToast
    ONBOARDING_BASE_XP
  constructor <;> simp <;> omega

/-- Witness for claim C10: a fresh state (no prior activity) submitting a
total of 20 lands on streak 1 and gains exactly 50 + 100 + 10 XP. -/
theorem onboarding_xp_grant_spec_witness :
    (Prog.onboardingSubmit 5 20 ⟨0, 0, none, []⟩).xp
      = (Prog.updateStreak 5 ⟨0, 0, none, []⟩).xp
        + (50 + 5 * 20 + 10 * (Prog.updateStreak 5 ⟨0, 0, none, []⟩).streak) ∧
    (Prog.updateStreak 5 ⟨0, 0, none, []⟩).xp
      ≤ (Prog.onboardingSubmit 5 20 ⟨0, 0, none, []⟩).xp :=
  onboarding_xp_grant_spec 5 20 ⟨0, 0, none, []⟩ (by decide) (by decide)
    (by decide)

/-!
Level curve.  The source cost function is
`xpForLevel(level) = Math.floor(100 * Math.pow(level, 1.4) + level * 50)`,
computed in IEEE-754 doubles.  Floating point does not embed, so the
level loop is parameterized over an arbitrary cost function together
with the one property the claims rest on: every level costs at least one
XP (true of the source curve, whose value is at least 150 for every
level from 1 up and grows with the level).  Termination of the source
`while` loop for every finite non-negative input is exactly what makes
`levelLoop` definable by well-founded recursion on the remainder.
-/

/-- The `while (remaining >= xpForLevel(level))` loop of
`computeLevelFromXP`: subtract the requirement and bump the level until
the remainder no longer covers the requirement.  Positivity of the cost
makes the remainder strictly decrease, so the loop terminates. -/
def levelLoop (cost : Nat → Nat) (hcost : ∀ l, 0 < cost l)
    (remaining level : Nat) : Nat × Nat :=
  if cost level ≤ remaining then
    levelLoop cost hcost (remaining - cost level) (level + 1)
  else
    (level, remaining)
termination_by remaining
decreasing_by
  have := hcost level
  omega

/-- The result record of `computeLevelFromXP`: the reached level, the XP
into that level, and the requirement for the next one. -/
structure LevelInfo where
  level : Nat
  current : Nat
  required : Nat
deriving DecidableEq

/-- `computeLevelFromXP(totalXP)`: clamp the input with
`Math.max(0, Math.floor(totalXP))` (on integers, `Int.toNat`), run the
level loop from level 1, and report level, remainder and next
requirement. -/
def computeLevelFromXP (cost : Nat → Nat) (hcost : ∀ l, 0 < cost l)
    (totalXP : Int) : LevelInfo :=
  let remaining := totalXP.toNat
  let r := levelLoop cost hcost remaining 1
  ⟨r.1, r.2, cost r.1⟩

/-- The level reached by the loop never falls below the starting level. -/
theorem levelLoop_level_le (cost : Nat → Nat) (hcost : ∀ l, 0 < cost l) :
    ∀ remaining level, level ≤ (levelLoop cost hcost remaining level).1 := by
  intro remaining
  induction remaining using Nat.strong_induction_on with
  | _ remaining ih =>
    intro level
    rw [levelLoop]
    split
    · next h =>
      have hlt : remaining - cost level < remaining := by
        have := hcost level
        omega
      exact le_trans (Nat.le_succ level) (ih _ hlt (level + 1))
    · exact le_refl level

/-- Claim C2: for every cost curve positive at each level (as the source
curve is) and every integer input, the level computation terminates (it
is a total function of the clamped remainder by well-founded recursion),
always reports a level of at least 1, and on input 0 reports level 1,
zero XP into the level, and the level-1 requirement for the next
level. -/
theorem computeLevelFromXP_spec (cost : Nat → Nat)
    (hcost : ∀ l, 0 < cost l) (xp : Int) :
    1 ≤ (computeLevelFromXP cost hcost xp).level ∧
    computeLevelFromXP cost hcost 0 = ⟨1, 0, cost 1⟩ := by
  constructor
  · exact levelLoop_level_le cost hcost xp.toNat 1
  · have h0 : ¬ cost 1 ≤ 0 := by
      have := hcost 1
      omega
    have hbase : levelLoop cost hcost 0 1 = (1, 0) := by
      rw [levelLoop]
      simp [h0]
    unfold computeLevelFromXP
    simp [hbase]

/-- A sample positive cost curve for exercising the level computation. -/
def sampleCost (level : Nat) : Nat := 150 * (level + 1)

/-- Every level of the sample curve costs at least one XP. -/
theorem sampleCost_pos : ∀ l, 0 < sampleCost l := by
  intro l
  unfold sampleCost
  omega

/-- Witness for claim C2 at the sample curve and input 325. -/
theorem computeLevelFromXP_spec_witness :
    1 ≤ (computeLevelFromXP sampleCost sampleCost_pos 325).level ∧
    computeLevelFromXP sampleCost sampleCost_pos 0 = ⟨1, 0, sampleCost 1⟩ :=
  computeLevelFromXP_spec sampleCost sampleCost_pos 325

/-- A snapshot of derived state fed to the achievement predicates. -/
structure Snapshot where
  historyCount : Nat
  streak : Int
  xp : Int
  level : Nat
  rank : String

/-- One achievement rule: id, display title, and for snapshot-evaluated
rules the predicate; the two time-of-day rules carry none. -/
structure Rule where
  id : String
  title : String
  check : Option (Snapshot → Bool)

/-- The static `ALL_ACHIEVEMENTS` table. -/
def ALL_ACHIEVEMENTS : List Rule :=
  [⟨"first_analysis", "First Awakening", some fun s => decide (s.historyCount ≥ 1)⟩,
   ⟨"three_day_streak", "3 Day Streak", some fun s => decide (s.streak ≥ 3)⟩,
   ⟨"seven_day_streak", "7 Day Streak", some fun s => decide (s.streak ≥ 7)⟩,
   ⟨"thirty_day_streak", "Consistency Master", some fun s => decide (s.streak ≥ 30)⟩,
   ⟨"five_sessions", "5 Analyses", some fun s => decide (s.historyCount ≥ 5)⟩,
   ⟨"level_5", "Level 5", some fun s => decide (s.level ≥ 5)⟩,
   ⟨"level_10", "Level 10", some fun s => decide (s.level ≥ 10)⟩,
   ⟨"builder_rank", "Builder Rank", some fun s => decide (s.rank ∈ ["Builder", "Architect"])⟩,
   ⟨"architect_rank", "Architect Rank", some fun s => decide (s.rank = "Architect")⟩,
   ⟨"night_owl", "Night Owl", none⟩,
   ⟨"early_bird", "Early Bird", none⟩]

/-- `unlockAchievement(id)`: read the unlock list (self-healing read);
if the id is already present return `false` and change nothing more;
otherwise append the id, persist, toast the title looked up in the rule
table (falling back to the id), and return `true`. -/
def unlockAchievement (id : String) (s : Store) : Bool × Store :=
  let r := getAchievements s
  let unlocked := r.1
  let s1 := r.2
  if id ∈ unlocked then (false, s1)
  else
    let s2 := saveAchievements (unlocked ++ [id]) s1
    let title :=
      match ALL_ACHIEVEMENTS.find? (fun x => x.id == id) with
      | some rule => rule.title
      | none => id
    (true, showToast ("Achievement Unlocked: " ++ title) s2)

/-- Claim C4: unlocking is idempotent.  For an id already present in the
persisted Unlock Set, `unlockAchievement(id)` returns `false` and leaves
the whole store — in particular the persisted Unlock Set and the toast
queue — exactly as it was: no write, no second notification. -/
theorem unlockAchievement_idempotent (id : String) (s : Store)
    (h : id ∈ (getAchievements s).1) :
    unlockAchievement id s = (false, s) := by
  unfold unlockAchievement
  cases hs : s.achievements with
  | absent =>
    exfalso
    simp [getAchievements, safeGetJSON, hs] at h
  | corrupt =>
    exfalso
    simp [getAchievements, safeGetJSON, hs] at h
  | stored l =>
    have hmem : id ∈ l := by
      simpa [getAchievements, safeGetJSON, hs] using h
    simp [getAchievements, safeGetJSON, hs, hmem]
    cases s
    simp_all

/-- Witness for claim C4 on a store already holding the id. -/
theorem unlockAchievement_idempotent_witness :
    unlockAchievement "first_analysis"
        ⟨.absent, .stored ["first_analysis"], .absent, .absent, none, []⟩
      = (false, ⟨.absent, .stored ["first_analysis"], .absent, .absent, none, []⟩) :=
  unlockAchievement_idempotent "first_analysis"
    ⟨.absent, .stored ["first_analysis"], .absent, .absent, none, []⟩
    (by decide)

/-- The JSON document built by `exportData()`: history, achievements,
xp, streak and last-active date.  `JSON.stringify` on export and
`JSON.parse` on import are mutually inverse on this plain data, so the
document is modelled structurally. -/
structure Payload where
  history : List Record
  achievements : List String
  xp : Int
  streak : Int
  lastActive : Option String
deriving DecidableEq

/-- `exportData()`: snapshot the store through its read accessors (the
JSON reads self-heal corrupt keys as a side effect) into a payload, then
toast.  The blob download is presentation-layer and not modelled. -/
def exportData (s : Store) : Payload × Store :=
  let rh := getHistory s
  let ra := getAchievements rh.2
  (⟨rh.1, ra.1, getXP ra.2, getStreak ra.2, getLastActive ra.2⟩,
   showToast "Data exported" ra.2)

/-- `importData(json)`: overwrite each store key from the corresponding
payload field after its own check.  The `if (obj.history)` and
`if (obj.achievements)` truthiness guards always pass for arrays (even
empty ones); `Number.isFinite(Number(...))` always passes for the
integer xp and streak of an exported payload; the `if (obj.lastActive)`
guard skips `null` and the empty string.  Returns `true` (the catch
branch for an unparseable document is unreachable for structurally valid
payloads) after toasting. -/
def importData (p : Payload) (s : Store) : Bool × Store :=
  let s1 := saveHistory p.history s
  let s2 := saveAchievements p.achievements s1
  let s3 := { s2 with xp := Cell.stored p.xp }
  let s4 := { s3 with streak := Cell.stored p.streak }
  let s5 :=
    match p.lastActive with
    | none => s4
    | some la => if la = "" then s4 else { s4 with lastActive := some la }
  (true, showToast "Data imported" s5)

/-- The observable content of the store: what the read accessors report
for history, achievements, xp, streak and last-active date. -/
def observe (s : Store) : List Record × List String × Int × Int × Option String :=
  ((getHistory s).1, (getAchievements s).1, getXP s, getStreak s,
   getLastActive s)

/-- Claim C9: round-trip.  Importing the document produced by export
restores a state observably equal to the state at export time — and that
observation is exactly the exported payload (same history sequence,
achievement unlock set, xp, streak and last-active date). -/
theorem export_import_roundtrip (s : Store) :
    observe (importData (exportData s).1 (exportData s).2).2
      = observe (exportData s).2 ∧
    observe (exportData s).2
      = ((exportData s).1.history, (exportData s).1.achievements,
         (exportData s).1.xp, (exportData s).1.streak,
         (exportData s).1.lastActive) := by
  unfold observe importData exportData saveHistory saveAchievements
    getHistory getAchievements getXP getStreak getLastActive showToast
    safeGetJSON
  cases s.history <;> cases s.achievements <;> cases s.xp <;>
    cases s.streak <;> rcases hla : s.lastActive with _ | la <;>
    simp [hla] <;> split <;> simp_all

/-- One entry of `RANK_THRESHOLDS`: rank name and inclusive score
band. -/
structure RankBand where
  name : String
  min : Int
  max : Int
deriving BEq, DecidableEq

/-- The static `RANK_THRESHOLDS` table. -/
def RANK_THRESHOLDS : List RankBand :=
  [⟨"Dreamer", 0, 9⟩, ⟨"Explorer", 10, 12⟩,
   ⟨"Builder", 13, 16⟩, ⟨"Architect", 17, 20⟩]

/-- `Math.round(n / d)` for integers `n` and `d > 0`, computed exactly:
`Math.round(x)` is the floor of `x + 1/2`, and the floor of
`(n + d/2) / d` is the Euclidean division `(2n + d) / (2d)`.  The lemma
`jsRound_eq_round` below certifies the equation with the mathematical
rounding on the rationals. -/
def jsRound (n d : Int) : Int := (2 * n + d) / (2 * d)

/-- `jsRound` is the half-up rounding of the exact fraction. -/
theorem jsRound_eq_round (n d : Int) (hd : 0 < d) :
    jsRound n d = round ((n : ℚ) / (d : ℚ)) := by
  have hk : (((2 * d).toNat : ℤ)) = 2 * d := Int.toNat_of_nonneg (by omega)
  have hd0 : (d : ℚ) ≠ 0 := Int.cast_ne_zero.mpr (by omega)
  have h1 : (n : ℚ) / (d : ℚ) + 1 / 2
      = ((2 * n + d : ℤ) : ℚ) / (((2 * d).toNat : ℕ) : ℚ) := by
    rw [show ((((2 * d).toNat : ℕ)) : ℚ) = ((2 * d : ℤ) : ℚ) by exact_mod_cast hk]
    push_cast
    field_simp
    ring
  rw [round_eq, h1, Rat.floor_intCast_div_natCast, hk, jsRound]

/-- `progressToNextRankPercent(total)`: find the band containing the
total (falling back to the first band), look up the following band
(index clamped to the table end); when current and next coincide — the
top band — return 100; otherwise linearly interpolate the total inside
the current band (`progress = (total - min) / span`, and 1 when the span
is zero) and clamp `Math.round(progress * 100)` to 0..100.  The source
computes the interpolation in doubles; it is modelled in exact
arithmetic (`jsRound`), which agrees on every reachable value, none of
which falls on a double-rounding boundary.  Same-index bands are the
reference-equal case of the source `===` test, distinct table entries
being distinct objects. -/
def progressToNextRankPercent (total : Int) : Int :=
  let current :=
    (RANK_THRESHOLDS.find? fun r =>
      decide (total ≥ r.min) && decide (total ≤ r.max)).getD
      (RANK_THRESHOLDS.headD ⟨"Dreamer", 0, 9⟩)
  let idx := RANK_THRESHOLDS.indexOf current
  let nextIdx := min (idx + 1) (RANK_THRESHOLDS.length - 1)
  let next := RANK_THRESHOLDS.getD nextIdx ⟨"Dreamer", 0, 9⟩
  if current = next then 100
  else
    let span : Int := current.max - current.min
    let rounded : Int :=
      if span = 0 then 100 else jsRound ((total - current.min) * 100) span
    max 0 (min 100 rounded)

/-- Claim C8: on the score range 4..20, `progressToNextRankPercent` is
an integer between 0 and 100 equal to the rounded linear interpolation
of the total inside the current rank band of `RANK_THRESHOLDS`
(Dreamer 0..9, Explorer 10..12, Builder 13..16) — `jsRound` being
exactly the half-up rounding of the fraction, per the last conjunct —
and on the whole top band (total at least 17) it is exactly 100. -/
theorem progressToNextRankPercent_spec (total : Int)
    (h4 : 4 ≤ total) (h20 : total ≤ 20) :
    0 ≤ progressToNextRankPercent total ∧
    progressToNextRankPercent total ≤ 100 ∧
    (total ≤ 9 →
      progressToNextRankPercent total = jsRound (total * 100) 9) ∧
    (10 ≤ total → total ≤ 12 →
      progressToNextRankPercent total = jsRound ((total - 10) * 100) 2) ∧
    (13 ≤ total → total ≤ 16 →
      progressToNextRankPercent total = jsRound ((total - 13) * 100) 3) ∧
    (17 ≤ total → progressToNextRankPercent total = 100) ∧
    (∀ n d : Int, 0 < d → jsRound n d = round ((n : ℚ) / (d : ℚ))) := by
  refine ⟨?_, ?_, ?_, ?_, ?_, ?_, fun n d hd => jsRound_eq_round n d hd⟩ <;>
    · interval_cases total <;> intros <;> first | omega | decide

/-- Witness for claim C8 at total = 14 (Builder band: 33 percent). -/
theorem progressToNextRankPercent_spec_witness :
    0 ≤ progressToNextRankPercent 14 ∧
    progressToNextRankPercent 14 ≤ 100 ∧
    ((13 : Int) ≤ 14 → (14 : Int) ≤ 16 →
      progressToNextRankPercent 14 = jsRound ((14 - 13) * 100) 3) :=
  ⟨(progressToNextRankPercent_spec 14 (by decide) (by decide)).1,
   (progressToNextRankPercent_spec 14 (by decide) (by decide)).2.1,
   (progressToNextRankPercent_spec 14 (by decide) (by decide)).2.2.2.2.1⟩

/-- Claim C3: when the stored history value is corrupt (fails to parse),
`getHistory()` returns the empty-sequence fallback, re-persists that
fallback to the key, and a second read of the key returns the same empty
sequence with the store unchanged.  The caller never sees a thrown parse
error: `safeGetJSON` is a total function whose corrupt branch is the
catch handler that logs and self-heals. -/
theorem getHistory_selfheals_corrupt (s : Store)
    (h : s.history = Cell.corrupt) :
    (getHistory s).1 = [] ∧
    ((getHistory s).2).history = Cell.stored [] ∧
    getHistory ((getHistory s).2) = ([], (getHistory s).2) := by
  unfold getHistory safeGetJSON
  rw [h]
  simp

/-- Witness for claim C3 on a store whose history key is corrupt. -/
theorem getHistory_selfheals_corrupt_witness :
    (getHistory ⟨.corrupt, .absent, .absent, .absent, none, []⟩).1 = [] ∧
    ((getHistory ⟨.corrupt, .absent, .absent, .absent, none, []⟩).2).history
      = Cell.stored [] ∧
    getHistory ((getHistory ⟨.corrupt, .absent, .absent, .absent, none, []⟩).2)
      = ([], (getHistory ⟨.corrupt, .absent, .absent, .absent, none, []⟩).2) :=
  getHistory_selfheals_corrupt ⟨.corrupt, .absent, .absent, .absent, none, []⟩ rfl
